import Mathlib

/-!
Shallow embedding of the Tufin/conntrack `ovs` package's protocol/session
layer: generic-netlink family discovery with the module-autoload retry,
session construction (`Dpif`), datapath identity resolution, the OVS
header codec, reply-header validation, and the flow-follow orchestrator
with its combined stop function.

External collaborators (the netlink transport, the message builder and
message parser primitives, the datapath/flow domain library) are modelled
from the spec as oracles threaded through an explicit `World` state; every
definition carrying a doc comment starting with `Modelled from the spec:`
is such a model.  Everything else is translated directly from the Go
source (`ovs.go` and the dpif session file).
-/

/-- Error values observable at this layer.  `netlink code` stands for the
transport's `NetlinkError(errno)`, `familyUnavailable` for the package's
`familyUnavailableError`, `noSuchDatapath` for the domain library's
"no such datapath" condition, `cannotFindDatapath` for the unified
`Cannot find datapath "name"` error built in `lookupDatapath`. -/
inductive Err where
  | netlink (code : Nat)
  | familyUnavailable (family : String)
  | noSuchDatapath
  | cannotFindDatapath (name : String)
  | noSuchMCGroup (group : String) (family : String)
  | protocolMismatch
  | shortMsg
  | other (msg : String)
deriving DecidableEq, Repr

/-- The errno `ENOENT`. -/
def ENOENT : Nat := 2

/-- Modelled from the spec: the transport's `NetlinkError` value carrying an
errno, compared with `==` in the source. -/
def NetlinkError (code : Nat) : Err := Err.netlink code

/-- Observable events used for resource accounting: socket lifecycle,
genl family queries, the module-autoload probe, and the flow-follow
stop action of the domain library. -/
inductive Event where
  | sockOpen (fd : Nat)
  | sockClose (fd : Nat)
  | genlQuery (name : String)
  | moduleLoadAttempt
  | flowStop
deriving DecidableEq, Repr

/-- A resolved generic netlink family: numeric id plus its multicast-group
registry (the two fields of `GenlFamily` this layer reads). -/
structure GenlFamily where
  id : Nat
  mcGroups : List (String × Nat)
deriving DecidableEq, Repr

/-- The fields of `NetlinkSocket` this layer reads: the file descriptor and
the socket type it was opened with. -/
structure NetlinkSocket where
  fd : Nat
  sockType : Nat
deriving DecidableEq, Repr

/-- Modelled from the spec: a session-scoped datapath reference
(`DatapathHandle` of the domain library), carrying the numeric id. -/
structure DatapathHandle where
  ifindex : Nat
deriving DecidableEq, Repr

/-- Modelled from the spec: a `Datapath` of the domain library, as returned
by `LookupDatapathByID`: a handle plus the datapath's recorded name. -/
structure Datapath where
  Handle : DatapathHandle
  Name : String
deriving DecidableEq, Repr

/-- Modelled from the spec: the datapath/flow domain library's two lookup
entry points, `failing with a distinguishable "no such datapath"
condition` when absent. -/
structure DpEnv where
  byName : String → Except Err DatapathHandle
  byID : Nat → Except Err Datapath

/-- The world state threading all external effects: the transport oracles
(indexed by call count so successive calls may answer differently), the
process-wide `sync.Once` guard flag `tried`, the set of currently open
socket fds, the next fresh fd, and the event trace. -/
structure World where
  genlOracle : Nat → String → Except Err GenlFamily
  genlCount : Nat
  openOracle : Nat → Option Err
  openCount : Nat
  sockoptOracle : Nat → Option Err
  sockoptCount : Nat
  dpEnv : DpEnv
  followResult : Except Err Unit
  tried : Bool
  openSocks : List Nat
  nextFd : Nat
  trace : List Event

/-- The constant `syscall.NETLINK_GENERIC`. -/
def NETLINK_GENERIC : Nat := 16

/-- The constant `syscall.NETLINK_NETFILTER`. -/
def NETLINK_NETFILTER : Nat := 12

/-- Modelled from the spec: `openSocket(kind)` of the transport library.
On success it hands out a fresh fd, records it open and traces the open. -/
def OpenNetlinkSocket (ty : Nat) (w : World) : Except Err NetlinkSocket × World :=
  match w.openOracle w.openCount with
  | some e => (Except.error e, { w with openCount := w.openCount + 1 })
  | none =>
    (Except.ok ⟨w.nextFd, ty⟩,
      { w with
          openCount := w.openCount + 1
          nextFd := w.nextFd + 1
          openSocks := w.nextFd :: w.openSocks
          trace := w.trace ++ [Event.sockOpen w.nextFd] })

/-- Modelled from the spec: `Socket.close()` releases the socket.  The fd
is removed from the open set and the close is traced. -/
def NetlinkSocket.Close (sock : NetlinkSocket) (w : World) : Option Err × World :=
  (none,
    { w with
        openSocks := w.openSocks.erase sock.fd
        trace := w.trace ++ [Event.sockClose sock.fd] })

/-- Modelled from the spec: `Socket.lookupFamilyByName(name)`, answered by
the genl oracle at the current query count; each call counts as one
transport query and is traced. -/
def NetlinkSocket.LookupGenlFamily (sock : NetlinkSocket) (name : String) (w : World) :
    Except Err GenlFamily × World :=
  (w.genlOracle w.genlCount name,
    { w with
        genlCount := w.genlCount + 1
        trace := w.trace ++ [Event.genlQuery name] })

/-- The family index constants of the source. -/
def DATAPATH : Nat := 0

/-- The `VPORT` family index. -/
def VPORT : Nat := 1

/-- The `FLOW` family index. -/
def FLOW : Nat := 2

/-- The `PACKET` family index. -/
def PACKET : Nat := 3

/-- The `FAMILY_COUNT` constant. -/
def FAMILY_COUNT : Nat := 4

/-- The `familyNames` array of the source. -/
def familyNames : List String := ["ovs_datapath", "ovs_vport", "ovs_flow", "ovs_packet"]

/-- The `familyUnavailableError` predicate `IsKernelLacksODPError`: true
exactly on `familyUnavailableError` values. -/
def IsKernelLacksODPError (e : Err) : Bool :=
  match e with
  | Err.familyUnavailable _ => true
  | _ => false

/-- The `loadOpenvswitchModule` probe.  Its raw ioctl side effect is
abstracted to a traced `moduleLoadAttempt`; per the spec it always closes
its temporary socket and never fails, so no resource state changes. -/
def loadOpenvswitchModule (w : World) : World :=
  { w with trace := w.trace ++ [Event.moduleLoadAttempt] }

/-- The `triedLoadOpenvswitchModule sync.Once` guard: `Do` runs the action
only if the guard has not fired yet, and marks it fired. -/
def onceDo (action : World → World) (w : World) : World :=
  if w.tried then w else { action w with tried := true }

/-- The source's `lookupFamily`: query once; on `NetlinkError(ENOENT)`
fire the one-shot module-autoload guard and retry exactly once; a second
`ENOENT` becomes `familyUnavailableError{name}`; any other error is
returned unchanged. -/
def lookupFamily (sock : NetlinkSocket) (name : String) (w : World) :
    Except Err GenlFamily × World :=
  match sock.LookupGenlFamily name w with
  | (Except.ok family, w1) => (Except.ok family, w1)
  | (Except.error e, w1) =>
    if e = NetlinkError ENOENT then
      let w2 := onceDo loadOpenvswitchModule w1
      match sock.LookupGenlFamily name w2 with
      | (Except.ok family, w3) => (Except.ok family, w3)
      | (Except.error e2, w3) =>
        if e2 = NetlinkError ENOENT then
          (Except.error (Err.familyUnavailable name), w3)
        else
          (Except.error e2, w3)
    else
      (Except.error e, w1)

/-- The names of the genl queries in a trace, in order. -/
def queryNames (t : List Event) : List String :=
  t.filterMap fun e =>
    match e with
    | Event.genlQuery n => some n
    | _ => none

/-- The `Dpif` session handle: one socket plus the resolved families (a
fixed four-slot array in the source, a length-4 list here). -/
structure Dpif where
  sock : NetlinkSocket
  families : List GenlFamily
deriving DecidableEq, Repr

/-- The accessor `Families()`. -/
def Dpif.Families (dpif : Dpif) : List GenlFamily :=
  dpif.families

/-- The resolution loop body of `newDpifType`: resolve each family name in
order, stopping at the first error. -/
def resolveFamiliesFrom (sock : NetlinkSocket) (names : List String) (w : World) :
    Except Err (List GenlFamily) × World :=
  match names with
  | [] => (Except.ok [], w)
  | n :: rest =>
    match lookupFamily sock n w with
    | (Except.error e, w1) => (Except.error e, w1)
    | (Except.ok f, w1) =>
      match resolveFamiliesFrom sock rest w1 with
      | (Except.ok fs, w2) => (Except.ok (f :: fs), w2)
      | (Except.error e, w2) => (Except.error e, w2)

/-- The source's `newDpifType`: open a socket of the given netlink type,
resolve the four families in the fixed `familyNames` order, closing the
socket and returning the error if any resolution fails. -/
def newDpifType (netlinkType : Nat) (w : World) : Except Err Dpif × World :=
  match OpenNetlinkSocket netlinkType w with
  | (Except.error e, w1) => (Except.error e, w1)
  | (Except.ok sock, w1) =>
    match resolveFamiliesFrom sock familyNames w1 with
    | (Except.error e, w2) => (Except.error e, (sock.Close w2).2)
    | (Except.ok fams, w2) => (Except.ok ⟨sock, fams⟩, w2)

/-- The source's `NewDpif`. -/
def NewDpif (w : World) : Except Err Dpif × World :=
  newDpifType NETLINK_NETFILTER w

/-- The source's `Reopen`: open a new socket of the same type and reuse
the already-resolved family set, with no re-resolution. -/
def Dpif.Reopen (dpif : Dpif) (w : World) : Except Err Dpif × World :=
  match OpenNetlinkSocket dpif.sock.sockType w with
  | (Except.error e, w1) => (Except.error e, w1)
  | (Except.ok sock, w1) => (Except.ok ⟨sock, dpif.families⟩, w1)

/-- The source's `getMCGroup`: look up a multicast group by name within an
already-resolved family. -/
def Dpif.getMCGroup (dpif : Dpif) (family : Nat) (name : String) : Except Err Nat :=
  match (dpif.families.getD family ⟨0, []⟩).mcGroups.lookup name with
  | none => Except.error (Err.noSuchMCGroup name (familyNames.getD family ""))
  | some g => Except.ok g

/-- The source's `Dpif.Close`: closes the owned socket. -/
def Dpif.Close (dpif : Dpif) (w : World) : Option Err × World :=
  dpif.sock.Close w

/-- Modelled from the spec: `syscall.SetsockoptInt(... NETLINK_ADD_MEMBERSHIP ...)`,
answered by the sockopt oracle. -/
def SetsockoptAddMembership (sock : NetlinkSocket) (group : Nat) (w : World) :
    Option Err × World :=
  (w.sockoptOracle w.sockoptCount, { w with sockoptCount := w.sockoptCount + 1 })

/-- The source's `NewDpifOvs`: generic-mode session construction, then the
`ovs_flow` multicast-group lookup, then (when `follow`) the multicast
subscription; each later step closes the session on failure. -/
def NewDpifOvs (follow : Bool) (w : World) : Except Err Dpif × World :=
  match newDpifType NETLINK_GENERIC w with
  | (Except.error e, w1) => (Except.error e, w1)
  | (Except.ok dpif, w1) =>
    match dpif.getMCGroup FLOW "ovs_flow" with
    | Except.error e => (Except.error e, (dpif.Close w1).2)
    | Except.ok group =>
      if follow then
        match SetsockoptAddMembership dpif.sock group w1 with
        | (some e, w2) => (Except.error e, (dpif.Close w2).2)
        | (none, w2) => (Except.ok dpif, w2)
      else
        (Except.ok dpif, w1)

/-- Modelled from the spec: `dpif.LookupDatapath(name)` of the domain
library, answered by the datapath environment. -/
def Dpif.LookupDatapath (dpif : Dpif) (env : DpEnv) (name : String) :
    Except Err DatapathHandle :=
  env.byName name

/-- Modelled from the spec: `dpif.LookupDatapathByID(id)` of the domain
library, answered by the datapath environment. -/
def Dpif.LookupDatapathByID (dpif : Dpif) (env : DpEnv) (id : Nat) :
    Except Err Datapath :=
  env.byID id

/-- Modelled from the spec: `IsNoSuchDatapathError` recognises exactly the
domain library's "no such datapath" condition. -/
def IsNoSuchDatapathError (e : Err) : Bool :=
  match e with
  | Err.noSuchDatapath => true
  | _ => false

/-- Go's `strconv.ParseUint(s, 10, 32)`: succeeds exactly on a nonempty
all-digit string whose value fits in 32 bits. -/
def parseUint32 (s : String) : Option Nat :=
  if s.data ≠ [] ∧ s.data.all Char.isDigit = true then
    let n := s.data.foldl (fun acc c => acc * 10 + (c.toNat - 48)) 0
    if n < 4294967296 then some n else none
  else
    none

/-- The source's `lookupDatapath` (ovs.go): name lookup first, numeric-id
fallback only when the name fails with "no such datapath" and parses as a
32-bit unsigned integer, and a single unified `Cannot find datapath`
error once both paths are exhausted. -/
def lookupDatapath (dpif : Dpif) (env : DpEnv) (name : String) :
    Except Err (DatapathHandle × String) :=
  match dpif.LookupDatapath env name with
  | Except.ok dph => Except.ok (dph, name)
  | Except.error e =>
    if IsNoSuchDatapathError e = false then
      Except.error e
    else
      match parseUint32 name with
      | some ifindex =>
        match dpif.LookupDatapathByID env ifindex with
        | Except.ok dp => Except.ok (dp.Handle, dp.Name)
        | Except.error e2 =>
          if IsNoSuchDatapathError e2 = false then
            Except.error e2
          else
            Except.error (Err.cannotFindDatapath name)
      | none => Except.error (Err.cannotFindDatapath name)

/-- Modelled from the spec: `DatapathHandle.FollowFlows()` of the domain
library: on success an event channel (abstracted to `Unit`) and a stop
function that halts event delivery (traced as `flowStop`); on failure the
error, with no channel and an inert stop value. -/
def DatapathHandle.FollowFlows (dp : DatapathHandle) (w : World) :
    (Option Unit × (World → World) × Option Err) × World :=
  match w.followResult with
  | Except.ok _ =>
    ((some (), fun w0 => { w0 with trace := w0.trace ++ [Event.flowStop] }, none), w)
  | Except.error e => ((none, fun w0 => w0, some e), w)

/-- The source's `FollowOvsFlows` (ovs.go): open the session in generic
follow mode, resolve the `ovs-system` datapath, start following flows and
return the channel, the combined stop function `stop(); dpif.Close()`,
and the error. -/
def FollowOvsFlows (w : World) :
    (Option Unit × Option (World → World) × Option Err) × World :=
  match NewDpifOvs true w with
  | (Except.error e, w1) => ((none, none, some e), w1)
  | (Except.ok dpif, w1) =>
    match lookupDatapath dpif w1.dpEnv "ovs-system" with
    | Except.error e => ((none, none, some e), w1)
    | Except.ok (dp, _) =>
      match dp.FollowFlows w1 with
      | ((res, stop, err), w2) =>
        ((res, some (fun w0 => (dpif.Close (stop w0)).2), err), w2)

/-- The constant `syscall.NLMSG_ALIGNTO`. -/
def NLMSG_ALIGNTO : Nat := 4

/-- The size of `OvsHeader` (one 32-bit `DpIfIndex` field). -/
def SizeofOvsHeader : Nat := 4

/-- Rounding up to the next multiple of the alignment. -/
def alignUp (n a : Nat) : Nat := (n + a - 1) / a * a

/-- The datapath numeric id, a 32-bit unsigned interface index. -/
abbrev DatapathID := Nat

/-- The Go conversion `int32(x)`: reinterpret the low 32 bits of an
unsigned value as a two's-complement signed 32-bit integer. -/
def toInt32 (n : Nat) : Int :=
  let m := n % 4294967296
  if m < 2147483648 then (m : Int) else (m : Int) - 4294967296

/-- Little-endian byte image of a signed 32-bit value, as laid down in the
message buffer by the header store. -/
def int32ToBytes (v : Int) : List Nat :=
  let m := (v % 4294967296).toNat
  [m % 256, m / 256 % 256, m / 256 / 256 % 256, m / 256 / 256 / 256 % 256]

/-- Reading a signed 32-bit value back from four little-endian bytes. -/
def bytesToInt32 (b : List Nat) : Int :=
  let m := b.getD 0 0 + 256 * b.getD 1 0 + 65536 * b.getD 2 0 + 16777216 * b.getD 3 0
  if m < 2147483648 then (m : Int) else (m : Int) - 4294967296

/-- The message builder: a growable byte buffer. -/
structure NlMsgBuilder where
  buf : List Nat
deriving DecidableEq, Repr

/-- The message parser: the received bytes and the read cursor. -/
structure NlMsgParser where
  data : List Nat
  pos : Nat
deriving DecidableEq, Repr

/-- The decoded `OvsHeader` view: its signed 32-bit `DpIfIndex` field. -/
structure OvsHeader where
  DpIfIndex : Int
deriving DecidableEq, Repr

/-- Overwriting `bytes` into a buffer at a position. -/
def storeBytes (buf : List Nat) (pos : Nat) (bytes : List Nat) : List Nat :=
  buf.take pos ++ bytes ++ buf.drop (pos + bytes.length)

/-- Modelled from the spec: the builder's `AlignGrow`: pad the buffer with
zero bytes up to the next aligned boundary, reserve `size` further bytes
there, and return that position. -/
def NlMsgBuilder.AlignGrow (nlmsg : NlMsgBuilder) (align size : Nat) :
    Nat × NlMsgBuilder :=
  let pos := alignUp nlmsg.buf.length align
  (pos, ⟨nlmsg.buf ++ List.replicate (pos + size - nlmsg.buf.length) 0⟩)

/-- The source's `putOvsHeader`: align-grow by the header size and store
`int32(ifindex)` into the reserved space. -/
def NlMsgBuilder.putOvsHeader (nlmsg : NlMsgBuilder) (ifindex : DatapathID) :
    NlMsgBuilder :=
  match nlmsg.AlignGrow NLMSG_ALIGNTO SizeofOvsHeader with
  | (pos, nlmsg1) => ⟨storeBytes nlmsg1.buf pos (int32ToBytes (toInt32 ifindex))⟩

/-- Modelled from the spec: the parser's `AlignAdvance`: advance the read
cursor to the next aligned boundary and consume `size` bytes, failing if
the buffer is exhausted. -/
def NlMsgParser.AlignAdvance (msg : NlMsgParser) (align size : Nat) :
    Except Err (Nat × NlMsgParser) :=
  let pos := alignUp msg.pos align
  if pos + size ≤ msg.data.length then
    Except.ok (pos, ⟨msg.data, pos + size⟩)
  else
    Except.error Err.shortMsg

/-- The source's `takeOvsHeader`: align-advance by the header size and
return the header view over the consumed bytes. -/
def NlMsgParser.takeOvsHeader (msg : NlMsgParser) :
    Except Err (OvsHeader × NlMsgParser) :=
  match msg.AlignAdvance NLMSG_ALIGNTO SizeofOvsHeader with
  | Except.error e => Except.error e
  | Except.ok (pos, msg1) =>
    Except.ok (⟨bytesToInt32 ((msg1.data.drop pos).take 4)⟩, msg1)

/-- The source's `datapathID`: the Go conversion `DatapathID(DpIfIndex)`,
reinterpreting the signed field as the unsigned interface index. -/
def OvsHeader.datapathID (ovshdr : OvsHeader) : DatapathID :=
  (ovshdr.DpIfIndex % 4294967296).toNat

/-- The `OVS_DP_CMD_NEW` command constant of the uapi. -/
def OVS_DP_CMD_NEW : Int := 1

/-- The `OVS_VPORT_CMD_NEW` command constant of the uapi. -/
def OVS_VPORT_CMD_NEW : Int := 1

/-- The `OVS_FLOW_CMD_NEW` command constant of the uapi. -/
def OVS_FLOW_CMD_NEW : Int := 1

/-- A reply message as seen by `checkNlMsgHeaders`: the netlink envelope's
message type, the generic-netlink command byte, and the remaining bytes
holding the OVS header. -/
structure NlMsg where
  nlmsgType : Nat
  genlCmd : Nat
  body : NlMsgParser
deriving DecidableEq, Repr

/-- Modelled from the spec: `ExpectNlMsghdr` checks that the reply's
message type addresses the given family id. -/
def NlMsg.ExpectNlMsghdr (msg : NlMsg) (typ : Nat) : Except Err Unit :=
  if msg.nlmsgType = typ then Except.ok () else Except.error Err.protocolMismatch

/-- The decoded generic-netlink header view returned on success. -/
structure GenlMsghdr where
  cmd : Nat
deriving DecidableEq, Repr

/-- Modelled from the spec: `CheckGenlMsghdr` accepts the reply command
when it equals the expected command or the alternate command (`-1` when
no alternate is tolerated), and fails otherwise. -/
def NlMsg.CheckGenlMsghdr (msg : NlMsg) (cmd altCmd : Int) :
    Except Err GenlMsghdr :=
  if (msg.genlCmd : Int) = cmd ∨ (msg.genlCmd : Int) = altCmd then
    Except.ok ⟨msg.genlCmd⟩
  else
    Except.error Err.protocolMismatch

/-- The source's `checkNlMsgHeaders`: validate the netlink envelope against
the resolved family id, validate the command with the `OVS_*_CMD_NEW`
tolerance for the DATAPATH, VPORT and FLOW families only, then decode the
OVS header. -/
def Dpif.checkNlMsgHeaders (dpif : Dpif) (msg : NlMsg) (family : Nat) (cmd : Int) :
    Except Err (GenlMsghdr × OvsHeader) :=
  match msg.ExpectNlMsghdr (dpif.families.getD family ⟨0, []⟩).id with
  | Except.error e => Except.error e
  | Except.ok _ =>
    let checked :=
      if family = DATAPATH then msg.CheckGenlMsghdr cmd OVS_DP_CMD_NEW
      else if family = VPORT then msg.CheckGenlMsghdr cmd OVS_VPORT_CMD_NEW
      else if family = FLOW then msg.CheckGenlMsghdr cmd OVS_FLOW_CMD_NEW
      else msg.CheckGenlMsghdr cmd (-1)
    match checked with
    | Except.error e => Except.error e
    | Except.ok genlhdr =>
      match msg.body.takeOvsHeader with
      | Except.error e => Except.error e
      | Except.ok (ovshdr, _) => Except.ok (genlhdr, ovshdr)

/-- A concrete well-behaved family used by witness worlds. -/
def gfBase : GenlFamily := ⟨42, [("ovs_flow", 7)]⟩

/-- A concrete world where every external operation succeeds. -/
def baseWorld : World where
  genlOracle := fun _ _ => Except.ok gfBase
  genlCount := 0
  openOracle := fun _ => none
  openCount := 0
  sockoptOracle := fun _ => none
  sockoptCount := 0
  dpEnv := ⟨fun _ => Except.ok ⟨1⟩, fun _ => Except.ok ⟨⟨1⟩, "ovs-system"⟩⟩
  followResult := Except.ok ()
  tried := false
  openSocks := []
  nextFd := 10
  trace := []

/-- A concrete world whose kernel has no datapaths at all. -/
def wLeak : World :=
  { baseWorld with
      dpEnv := ⟨fun _ => Except.error Err.noSuchDatapath,
                fun _ => Except.error Err.noSuchDatapath⟩ }

/-- A concrete world whose kernel always answers `ENOENT` to family
queries. -/
def wEnoent : World :=
  { baseWorld with genlOracle := fun _ _ => Except.error (NetlinkError ENOENT) }

/-- The run of `FollowOvsFlows` on the all-success world. -/
def followBase : (Option Unit × Option (World → World) × Option Err) × World :=
  FollowOvsFlows baseWorld

/-- The stop function returned by that run. -/
def stopBase : World → World :=
  (followBase.1.2.1).getD id

/-- The session handle that run constructs. -/
def dpifBase : Dpif := ⟨⟨10, NETLINK_GENERIC⟩, [gfBase, gfBase, gfBase, gfBase]⟩

/-- A concrete session handle with four distinct families, for the
reopen witness. -/
def dpifSeven : Dpif :=
  ⟨⟨3, NETLINK_NETFILTER⟩, [⟨1, []⟩, ⟨2, []⟩, ⟨3, []⟩, ⟨4, []⟩]⟩

/-- A concrete datapath environment with no names but a datapath with
numeric id 42 whose recorded name is `weave-dp`. -/
def envNum : DpEnv :=
  ⟨fun _ => Except.error Err.noSuchDatapath,
   fun i => if i = 42 then Except.ok ⟨⟨42⟩, "weave-dp"⟩ else Except.error Err.noSuchDatapath⟩

/-- A concrete datapath environment where every name resolves but the
recorded names differ from any queried name. -/
def envC10 : DpEnv :=
  ⟨fun _ => Except.ok ⟨5⟩, fun _ => Except.ok ⟨⟨5⟩, "recorded-name"⟩⟩

/-- A concrete reply message matching `dpifBase`'s family id, carrying
command 9 and a four-byte body. -/
def msgBase : NlMsg := ⟨42, 9, ⟨[0, 0, 0, 0], 0⟩⟩

/-- Claim C10: whenever name-based lookup succeeds, `lookupDatapath`
returns the supplied identifier string itself as the canonical name; the
datapath's own recorded name is substituted only on the numeric-fallback
path. -/
theorem lookupDatapath_name_success_keeps_identifier
    (dpif : Dpif) (env : DpEnv) (name : String) (dph : DatapathHandle)
    (h : env.byName name = Except.ok dph) :
    lookupDatapath dpif env name = Except.ok (dph, name) := by
  unfold lookupDatapath Dpif.LookupDatapath
  rw [h]

theorem lookupDatapath_name_success_keeps_identifier_witness :
    envC10.byName "mydp" = Except.ok ⟨5⟩ ∧
    lookupDatapath dpifBase envC10 "mydp" = Except.ok (⟨5⟩, "mydp") :=
  ⟨rfl, lookupDatapath_name_success_keeps_identifier dpifBase envC10 "mydp" ⟨5⟩ rfl⟩

/-- Claim C5: `lookupDatapath` tries name lookup first and returns
immediately on success; a non-"no such datapath" name error propagates
unchanged with no numeric fallback; otherwise, when the identifier parses
as an unsigned 32-bit integer, numeric lookup is attempted, returning the
datapath's recorded name on success and propagating non-"no such
datapath" errors unchanged; once both paths are exhausted (including a
failed parse) the single unified "Cannot find datapath" error is
returned, identical in the bad-name and bad-numeric-id cases. -/
theorem lookupDatapath_resolution_cases (dpif : Dpif) (env : DpEnv) (name : String) :
    (∀ dph, env.byName name = Except.ok dph →
        lookupDatapath dpif env name = Except.ok (dph, name)) ∧
    (∀ e, env.byName name = Except.error e → IsNoSuchDatapathError e = false →
        lookupDatapath dpif env name = Except.error e) ∧
    (∀ e, env.byName name = Except.error e → IsNoSuchDatapathError e = true →
      (∀ n dp, parseUint32 name = some n → env.byID n = Except.ok dp →
          lookupDatapath dpif env name = Except.ok (dp.Handle, dp.Name)) ∧
      (∀ n e2, parseUint32 name = some n → env.byID n = Except.error e2 →
          IsNoSuchDatapathError e2 = false →
          lookupDatapath dpif env name = Except.error e2) ∧
      (∀ n e2, parseUint32 name = some n → env.byID n = Except.error e2 →
          IsNoSuchDatapathError e2 = true →
          lookupDatapath dpif env name = Except.error (Err.cannotFindDatapath name)) ∧
      (parseUint32 name = none →
          lookupDatapath dpif env name = Except.error (Err.cannotFindDatapath name))) := by
  refine ⟨?_, ?_, ?_⟩
  · intro dph h
    unfold lookupDatapath Dpif.LookupDatapath
    rw [h]
  · intro e h hn
    unfold lookupDatapath Dpif.LookupDatapath
    rw [h]
    simp [hn]
  · intro e h hy
    refine ⟨?_, ?_, ?_, ?_⟩
    · intro n dp hp hid
      unfold lookupDatapath Dpif.LookupDatapath Dpif.LookupDatapathByID
      rw [h]
      simp [hy, hp, hid]
    · intro n e2 hp hid hn2
      unfold lookupDatapath Dpif.LookupDatapath Dpif.LookupDatapathByID
      rw [h]
      simp [hy, hp, hid, hn2]
    · intro n e2 hp hid hy2
      unfold lookupDatapath Dpif.LookupDatapath Dpif.LookupDatapathByID
      rw [h]
      simp [hy, hp, hid, hy2]
    · intro hp
      unfold lookupDatapath Dpif.LookupDatapath
      rw [h]
      simp [hy, hp]

theorem lookupDatapath_resolution_cases_witness :
    envNum.byName "42" = Except.error Err.noSuchDatapath ∧
    IsNoSuchDatapathError Err.noSuchDatapath = true ∧
    parseUint32 "42" = some 42 ∧
    envNum.byID 42 = Except.ok ⟨⟨42⟩, "weave-dp"⟩ ∧
    lookupDatapath dpifBase envNum "42" = Except.ok (⟨42⟩, "weave-dp") ∧
    lookupDatapath dpifBase envNum "nonexistent" =
      Except.error (Err.cannotFindDatapath "nonexistent") := by
  refine ⟨rfl, rfl, by decide, rfl, ?_, ?_⟩
  · exact (((lookupDatapath_resolution_cases dpifBase envNum "42").2.2
      Err.noSuchDatapath rfl rfl).1 42 ⟨⟨42⟩, "weave-dp"⟩ (by decide) rfl)
  · exact (((lookupDatapath_resolution_cases dpifBase envNum "nonexistent").2.2
      Err.noSuchDatapath rfl rfl).2.2.2 (by decide))

/-- Claim C3: `checkNlMsgHeaders` accepts a reply exactly when the
envelope type matches the resolved family id, the OVS header parses, and
the reply command equals the expected command or - only for the
DATAPATH, VPORT and FLOW families - that family's "object created"
command; for any other family (in particular PACKET) only an exact
command match is accepted, and any mismatch yields an error. -/
theorem checkNlMsgHeaders_cmd_acceptance
    (dpif : Dpif) (msg : NlMsg) (family : Nat) (cmd : Int) :
    (dpif.checkNlMsgHeaders msg family cmd).isOk = true ↔
      (msg.nlmsgType = (dpif.families.getD family ⟨0, []⟩).id ∧
       ((msg.genlCmd : Int) = cmd ∨
        (family = DATAPATH ∧ (msg.genlCmd : Int) = OVS_DP_CMD_NEW) ∨
        (family = VPORT ∧ (msg.genlCmd : Int) = OVS_VPORT_CMD_NEW) ∨
        (family = FLOW ∧ (msg.genlCmd : Int) = OVS_FLOW_CMD_NEW)) ∧
       (msg.body.takeOvsHeader).isOk = true) := by
  have hneg : ¬ ((msg.genlCmd : Int) = -1) := by omega
  unfold Dpif.checkNlMsgHeaders NlMsg.ExpectNlMsghdr NlMsg.CheckGenlMsghdr
  by_cases ht : msg.nlmsgType = (dpif.families.getD family ⟨0, []⟩).id
  · simp only [ht, if_pos rfl]
    by_cases h0 : family = DATAPATH
    · simp only [h0, if_pos rfl]
      by_cases hc : (msg.genlCmd : Int) = cmd ∨ (msg.genlCmd : Int) = OVS_DP_CMD_NEW
      · cases hb : msg.body.takeOvsHeader with
        | ok r => simp [hc, hb, Except.isOk, Except.toBool, DATAPATH, VPORT, FLOW, h0]
        | error e => simp [hc, hb, Except.isOk, Except.toBool, DATAPATH, VPORT, FLOW, h0]
      · simp only [if_neg hc]
        simp [Except.isOk, Except.toBool, h0, DATAPATH, VPORT, FLOW]
        tauto
    · by_cases h1 : family = VPORT
      · simp only [h1, if_pos rfl]
        have h0' : ¬ family = DATAPATH := h0
        simp only [h1, if_neg (by simp [VPORT, DATAPATH] : ¬ VPORT = DATAPATH)]
        by_cases hc : (msg.genlCmd : Int) = cmd ∨ (msg.genlCmd : Int) = OVS_VPORT_CMD_NEW
        · cases hb : msg.body.takeOvsHeader with
          | ok r => simp [hc, hb, Except.isOk, Except.toBool, DATAPATH, VPORT, FLOW]
          | error e => simp [hc, hb, Except.isOk, Except.toBool, DATAPATH, VPORT, FLOW]
        · simp only [if_neg hc]
          simp [Except.isOk, Except.toBool, DATAPATH, VPORT, FLOW]
          tauto
      · by_cases h2 : family = FLOW
        · simp only [h2, if_neg (by simp [FLOW, DATAPATH] : ¬ FLOW = DATAPATH),
            if_neg (by simp [FLOW, VPORT] : ¬ FLOW = VPORT), if_pos rfl]
          by_cases hc : (msg.genlCmd : Int) = cmd ∨ (msg.genlCmd : Int) = OVS_FLOW_CMD_NEW
          · cases hb : msg.body.takeOvsHeader with
            | ok r => simp [hc, hb, Except.isOk, Except.toBool, DATAPATH, VPORT, FLOW]
            | error e => simp [hc, hb, Except.isOk, Except.toBool, DATAPATH, VPORT, FLOW]
          · simp only [if_neg hc]
            simp [Except.isOk, Except.toBool, DATAPATH, VPORT, FLOW]
            tauto
        · simp only [if_neg h0, if_neg h1, if_neg h2]
          by_cases hc : (msg.genlCmd : Int) = cmd
          · cases hb : msg.body.takeOvsHeader with
            | ok r => simp [hc, hb, hneg, Except.isOk, Except.toBool]
            | error e => simp [hc, hb, hneg, Except.isOk, Except.toBool]
          · have hcc : ¬ ((msg.genlCmd : Int) = cmd ∨ (msg.genlCmd : Int) = -1) := by
              tauto
            simp only [if_neg hcc]
            simp [Except.isOk, Except.toBool, hc, h0, h1, h2]
  · simp only [if_neg ht]
    constructor
    · intro h
      simp [Except.isOk, Except.toBool] at h
    · intro h
      exact absurd h.1 ht

theorem checkNlMsgHeaders_cmd_acceptance_witness :
    (dpifBase.checkNlMsgHeaders msgBase DATAPATH 9).isOk = true ∧
    (dpifBase.checkNlMsgHeaders msgBase PACKET 1).isOk = false := by
  constructor
  · exact (checkNlMsgHeaders_cmd_acceptance dpifBase msgBase DATAPATH 9).mpr
      ⟨by decide, Or.inl (by decide), by decide⟩
  · have h := checkNlMsgHeaders_cmd_acceptance dpifBase msgBase PACKET 1
    by_contra hc
    have hT : (dpifBase.checkNlMsgHeaders msgBase PACKET 1).isOk = true := by
      revert hc
      cases (dpifBase.checkNlMsgHeaders msgBase PACKET 1).isOk <;> simp
    rcases (h.mp hT).2.1 with h9 | ⟨hf, _⟩ | ⟨hf, _⟩ | ⟨hf, _⟩
    · exact absurd h9 (by decide)
    · exact absurd hf (by decide)
    · exact absurd hf (by decide)
    · exact absurd hf (by decide)

theorem alignUp_bounds (n : Nat) : n ≤ alignUp n 4 ∧ alignUp n 4 < n + 4 := by
  unfold alignUp
  have h1 := Nat.div_add_mod (n + 4 - 1) 4
  have h2 : (n + 4 - 1) % 4 < 4 := Nat.mod_lt _ (by omega)
  omega

theorem bytes_roundtrip (X : Nat) (h : X < 4294967296) :
    bytesToInt32 (int32ToBytes (toInt32 X)) = toInt32 X := by
  unfold bytesToInt32 int32ToBytes toInt32
  simp only [List.getD_cons_zero, List.getD_cons_succ]
  split_ifs <;> omega

theorem datapathID_toInt32 (X : Nat) (h : X < 4294967296) :
    OvsHeader.datapathID ⟨toInt32 X⟩ = X := by
  have hm : X % 4294967296 = X := Nat.mod_eq_of_lt h
  unfold OvsHeader.datapathID toInt32
  dsimp only
  rw [hm]
  split_ifs with hc
  · rw [Int.emod_eq_of_lt (by omega) (by omega)]
    show ((X : Int)).toNat = X
    omega
  · show (((X : Int) - 4294967296) % 4294967296).toNat = X
    omega

theorem int32ToBytes_length (v : Int) : (int32ToBytes v).length = 4 := by
  unfold int32ToBytes
  rfl

theorem storeBytes_parts (buf : List Nat) (pos : Nat) (bytes : List Nat)
    (h1 : pos ≤ buf.length) (h2 : buf.length ≤ pos + bytes.length) :
    (storeBytes buf pos bytes).drop pos = bytes ∧
    (storeBytes buf pos bytes).length = pos + bytes.length := by
  unfold storeBytes
  have hd : buf.drop (pos + bytes.length) = [] := by
    apply List.drop_eq_nil_of_le
    omega
  have ht : (buf.take pos).length = pos := by
    simp
    omega
  constructor
  · rw [hd, List.append_nil]
    exact List.drop_left' ht
  · rw [hd, List.append_nil]
    simp
    omega

/-- Claim C8: for every datapath numeric id X in the valid 32-bit range
(including 0 and the maximum representable value), writing the OVS header
with id X into a message buffer via `putOvsHeader` and reading it back
via `takeOvsHeader` followed by `datapathID` yields X again. -/
theorem ovsHeader_roundtrip (buf : List Nat) (X : DatapathID) (h : X < 4294967296) :
    ((NlMsgParser.mk ((NlMsgBuilder.mk buf).putOvsHeader X).buf buf.length).takeOvsHeader).map
        (fun r => r.1.datapathID) = Except.ok X := by
  have hb := alignUp_bounds buf.length
  have hlenb := int32ToBytes_length (toInt32 X)
  unfold NlMsgBuilder.putOvsHeader NlMsgBuilder.AlignGrow
  dsimp only
  unfold NLMSG_ALIGNTO SizeofOvsHeader
  set pos := alignUp buf.length 4 with hpos
  set bytes := int32ToBytes (toInt32 X) with hbytes
  set buf1 : List Nat := buf ++ List.replicate (pos + 4 - buf.length) 0 with hbuf1
  have hlen1 : buf1.length = pos + 4 := by
    rw [hbuf1]
    simp
    omega
  have hsp := storeBytes_parts buf1 pos bytes (by omega) (by omega)
  unfold NlMsgParser.takeOvsHeader NlMsgParser.AlignAdvance
  dsimp only
  unfold NLMSG_ALIGNTO SizeofOvsHeader
  rw [← hpos]
  rw [if_pos (by omega : pos + 4 ≤ (storeBytes buf1 pos bytes).length)]
  dsimp only [Except.map]
  have hdrop : (storeBytes buf1 pos bytes).drop pos = bytes := hsp.1
  rw [hdrop]
  have htake : bytes.take 4 = bytes := by
    rw [← hlenb]
    exact List.take_length bytes
  rw [htake, hbytes]
  rw [bytes_roundtrip X h]
  rw [datapathID_toInt32 X h]

theorem ovsHeader_roundtrip_witness :
    (0 : DatapathID) < 4294967296 ∧ (4294967295 : DatapathID) < 4294967296 ∧
    ((NlMsgParser.mk ((NlMsgBuilder.mk [1, 2, 3]).putOvsHeader 0).buf 3).takeOvsHeader).map
        (fun r => r.1.datapathID) = Except.ok 0 ∧
    ((NlMsgParser.mk ((NlMsgBuilder.mk [1, 2, 3]).putOvsHeader 4294967295).buf 3).takeOvsHeader).map
        (fun r => r.1.datapathID) = Except.ok 4294967295 :=
  ⟨by decide, by decide,
   ovsHeader_roundtrip [1, 2, 3] 0 (by decide),
   ovsHeader_roundtrip [1, 2, 3] 4294967295 (by decide)⟩

/-- Claim C4: `lookupFamily` queries the transport once; exactly when
that query fails with `ENOENT` does it fire the one-shot module-autoload
guard (running the probe only if not already tried) and retry the same
query exactly once; a second `ENOENT` becomes a `familyUnavailable` error
naming the family, recognisable by `IsKernelLacksODPError` and by nothing
else; any other error, on first attempt or on retry, propagates unchanged
with no further retry. -/
theorem lookupFamily_retry_behavior (w : World) (sock : NetlinkSocket) (name : String) :
    (∀ f, w.genlOracle w.genlCount name = Except.ok f →
        (lookupFamily sock name w).1 = Except.ok f ∧
        (lookupFamily sock name w).2.genlCount = w.genlCount + 1 ∧
        (lookupFamily sock name w).2.tried = w.tried ∧
        queryNames (lookupFamily sock name w).2.trace = queryNames w.trace ++ [name] ∧
        (lookupFamily sock name w).2.trace.count Event.moduleLoadAttempt =
          w.trace.count Event.moduleLoadAttempt) ∧
    (∀ e, w.genlOracle w.genlCount name = Except.error e → e ≠ NetlinkError ENOENT →
        (lookupFamily sock name w).1 = Except.error e ∧
        (lookupFamily sock name w).2.genlCount = w.genlCount + 1 ∧
        (lookupFamily sock name w).2.tried = w.tried ∧
        queryNames (lookupFamily sock name w).2.trace = queryNames w.trace ++ [name] ∧
        (lookupFamily sock name w).2.trace.count Event.moduleLoadAttempt =
          w.trace.count Event.moduleLoadAttempt) ∧
    (w.genlOracle w.genlCount name = Except.error (NetlinkError ENOENT) →
        (lookupFamily sock name w).2.tried = true ∧
        (lookupFamily sock name w).2.genlCount = w.genlCount + 2 ∧
        queryNames (lookupFamily sock name w).2.trace = queryNames w.trace ++ [name, name] ∧
        (lookupFamily sock name w).2.trace.count Event.moduleLoadAttempt =
          w.trace.count Event.moduleLoadAttempt + (if w.tried then 0 else 1) ∧
        (∀ f, w.genlOracle (w.genlCount + 1) name = Except.ok f →
            (lookupFamily sock name w).1 = Except.ok f) ∧
        (w.genlOracle (w.genlCount + 1) name = Except.error (NetlinkError ENOENT) →
            (lookupFamily sock name w).1 = Except.error (Err.familyUnavailable name)) ∧
        (∀ e2, w.genlOracle (w.genlCount + 1) name = Except.error e2 →
            e2 ≠ NetlinkError ENOENT →
            (lookupFamily sock name w).1 = Except.error e2)) ∧
    (∀ e, IsKernelLacksODPError e = true ↔ ∃ n, e = Err.familyUnavailable n) := by
  refine ⟨?_, ?_, ?_, ?_⟩
  · intro f hf
    unfold lookupFamily NetlinkSocket.LookupGenlFamily
    rw [hf]
    simp [queryNames, List.filterMap_append]
  · intro e he hne
    unfold lookupFamily NetlinkSocket.LookupGenlFamily
    rw [he]
    simp only [if_neg hne]
    simp [queryNames, List.filterMap_append]
  · intro he
    unfold lookupFamily NetlinkSocket.LookupGenlFamily onceDo loadOpenvswitchModule
    rw [he]
    simp only [if_pos rfl]
    by_cases ht : w.tried
    · simp only [ht, if_pos rfl]
      cases h2 : w.genlOracle (w.genlCount + 1) name with
      | ok f =>
        simp [h2, ht, queryNames, List.filterMap_append]
      | error e2 =>
        by_cases hne2 : e2 = NetlinkError ENOENT
        · subst hne2
          simp [h2, ht, queryNames, List.filterMap_append]
        · simp [h2, hne2, ht, queryNames, List.filterMap_append]
    · simp only [ht, if_neg (by simp : ¬ (false = true))]
      cases h2 : w.genlOracle (w.genlCount + 1) name with
      | ok f =>
        simp [h2, ht, queryNames, List.filterMap_append]
      | error e2 =>
        by_cases hne2 : e2 = NetlinkError ENOENT
        · subst hne2
          simp [h2, ht, queryNames, List.filterMap_append]
        · simp [h2, hne2, ht, queryNames, List.filterMap_append]
  · intro e
    cases e <;> simp [IsKernelLacksODPError]

theorem lookupFamily_retry_behavior_witness :
    (lookupFamily ⟨1, NETLINK_GENERIC⟩ "ovs_datapath" wEnoent).1 =
      Except.error (Err.familyUnavailable "ovs_datapath") ∧
    (lookupFamily ⟨1, NETLINK_GENERIC⟩ "ovs_datapath" wEnoent).2.tried = true ∧
    (lookupFamily ⟨1, NETLINK_GENERIC⟩ "ovs_datapath" wEnoent).2.genlCount = 2 ∧
    IsKernelLacksODPError (Err.familyUnavailable "ovs_datapath") = true := by
  have h := lookupFamily_retry_behavior wEnoent ⟨1, NETLINK_GENERIC⟩ "ovs_datapath"
  have h3 := h.2.2.1 (by rfl)
  exact ⟨h3.2.2.2.2.2.1 (by rfl), h3.1, h3.2.1,
    (h.2.2.2 (Err.familyUnavailable "ovs_datapath")).mpr ⟨"ovs_datapath", rfl⟩⟩

theorem lookupFamily_world_inv (sock : NetlinkSocket) (name : String) (w : World) :
    (lookupFamily sock name w).2.openSocks = w.openSocks ∧
    (lookupFamily sock name w).2.nextFd = w.nextFd ∧
    (lookupFamily sock name w).2.openCount = w.openCount ∧
    (lookupFamily sock name w).2.sockoptCount = w.sockoptCount ∧
    (lookupFamily sock name w).2.genlOracle = w.genlOracle ∧
    (lookupFamily sock name w).2.openOracle = w.openOracle ∧
    (lookupFamily sock name w).2.sockoptOracle = w.sockoptOracle ∧
    (lookupFamily sock name w).2.dpEnv = w.dpEnv ∧
    (lookupFamily sock name w).2.followResult = w.followResult := by
  unfold lookupFamily NetlinkSocket.LookupGenlFamily onceDo loadOpenvswitchModule
  cases h : w.genlOracle w.genlCount name with
  | ok f => simp
  | error e =>
    by_cases he : e = NetlinkError ENOENT
    · subst he
      simp only [if_pos rfl]
      by_cases ht : w.tried
      · cases h2 : w.genlOracle (w.genlCount + 1) name with
        | ok f => simp [ht, h2]
        | error e2 =>
          by_cases he2 : e2 = NetlinkError ENOENT
          · subst he2
            simp [ht, h2]
          · simp [ht, h2, he2]
      · cases h2 : w.genlOracle (w.genlCount + 1) name with
        | ok f => simp [ht, h2]
        | error e2 =>
          by_cases he2 : e2 = NetlinkError ENOENT
          · subst he2
            simp [ht, h2]
          · simp [ht, h2, he2]
    · simp [he]

theorem resolveFamilies4_cases (sock : NetlinkSocket) (w0 : World) :
    (∀ e, (resolveFamiliesFrom sock familyNames w0).1 = Except.error e →
        (resolveFamiliesFrom sock familyNames w0).2.openSocks = w0.openSocks ∧
        (resolveFamiliesFrom sock familyNames w0).2.nextFd = w0.nextFd) ∧
    (∀ fs, (resolveFamiliesFrom sock familyNames w0).1 = Except.ok fs →
        fs.length = 4 ∧
        (resolveFamiliesFrom sock familyNames w0).2.openSocks = w0.openSocks ∧
        ∃ f1 w1 f2 w2 f3 w3 f4,
          lookupFamily sock "ovs_datapath" w0 = (Except.ok f1, w1) ∧
          lookupFamily sock "ovs_vport" w1 = (Except.ok f2, w2) ∧
          lookupFamily sock "ovs_flow" w2 = (Except.ok f3, w3) ∧
          lookupFamily sock "ovs_packet" w3 =
            (Except.ok f4, (resolveFamiliesFrom sock familyNames w0).2) ∧
          fs = [f1, f2, f3, f4]) := by
  have i1 := lookupFamily_world_inv sock "ovs_datapath" w0
  unfold familyNames
  simp only [resolveFamiliesFrom]
  rcases h1 : lookupFamily sock "ovs_datapath" w0 with ⟨r1, w1⟩
  rw [h1] at i1
  cases r1 with
  | error e1 =>
    exact ⟨fun e he => ⟨i1.1, i1.2.1⟩, fun fs hfs => by simp at hfs⟩
  | ok f1 =>
    dsimp only
    have i2 := lookupFamily_world_inv sock "ovs_vport" w1
    rcases h2 : lookupFamily sock "ovs_vport" w1 with ⟨r2, w2⟩
    rw [h2] at i2
    cases r2 with
    | error e2 =>
      exact ⟨fun e he => ⟨i2.1.trans i1.1, i2.2.1.trans i1.2.1⟩,
             fun fs hfs => by simp at hfs⟩
    | ok f2 =>
      dsimp only
      have i3 := lookupFamily_world_inv sock "ovs_flow" w2
      rcases h3 : lookupFamily sock "ovs_flow" w2 with ⟨r3, w3⟩
      rw [h3] at i3
      cases r3 with
      | error e3 =>
        exact ⟨fun e he => ⟨i3.1.trans (i2.1.trans i1.1),
                            i3.2.1.trans (i2.2.1.trans i1.2.1)⟩,
               fun fs hfs => by simp at hfs⟩
      | ok f3 =>
        dsimp only
        have i4 := lookupFamily_world_inv sock "ovs_packet" w3
        rcases h4 : lookupFamily sock "ovs_packet" w3 with ⟨r4, w4⟩
        rw [h4] at i4
        cases r4 with
        | error e4 =>
          exact ⟨fun e he => ⟨i4.1.trans (i3.1.trans (i2.1.trans i1.1)),
                              i4.2.1.trans (i3.2.1.trans (i2.2.1.trans i1.2.1))⟩,
                 fun fs hfs => by simp at hfs⟩
        | ok f4 =>
          dsimp only
          refine ⟨fun e he => by simp at he, fun fs hfs => ?_⟩
          simp only [Except.ok.injEq] at hfs
          subst hfs
          exact ⟨rfl, i4.1.trans (i3.1.trans (i2.1.trans i1.1)),
                 f1, w1, f2, w2, f3, w3, f4, rfl, h2, h3, h4, rfl⟩

/-- Claim C6: `newDpifType` opens the socket first and then resolves the
four well-known families in the fixed order datapath, vport, flow,
packet; on any resolution failure it closes the socket and returns the
error with the open-socket set restored, and every successfully
constructed handle carries exactly the four resolved families. -/
theorem newDpifType_atomic_construction (w : World) (ty : Nat) :
    (∀ e, (newDpifType ty w).1 = Except.error e →
        (newDpifType ty w).2.openSocks = w.openSocks) ∧
    (∀ dpif, (newDpifType ty w).1 = Except.ok dpif →
        dpif.families.length = FAMILY_COUNT ∧
        dpif.sock.fd = w.nextFd ∧
        dpif.sock.sockType = ty ∧
        (newDpifType ty w).2.openSocks = w.nextFd :: w.openSocks ∧
        ∃ w0 f1 w1 f2 w2 f3 w3 f4,
          OpenNetlinkSocket ty w = (Except.ok dpif.sock, w0) ∧
          lookupFamily dpif.sock "ovs_datapath" w0 = (Except.ok f1, w1) ∧
          lookupFamily dpif.sock "ovs_vport" w1 = (Except.ok f2, w2) ∧
          lookupFamily dpif.sock "ovs_flow" w2 = (Except.ok f3, w3) ∧
          lookupFamily dpif.sock "ovs_packet" w3 = (Except.ok f4, (newDpifType ty w).2) ∧
          dpif.families = [f1, f2, f3, f4]) := by
  unfold newDpifType OpenNetlinkSocket
  cases ho : w.openOracle w.openCount with
  | some e =>
    dsimp only
    exact ⟨fun e' he' => rfl, fun dpif hd => by simp at hd⟩
  | none =>
    dsimp only
    have hres := resolveFamilies4_cases ⟨w.nextFd, ty⟩
      { w with
          openCount := w.openCount + 1
          nextFd := w.nextFd + 1
          openSocks := w.nextFd :: w.openSocks
          trace := w.trace ++ [Event.sockOpen w.nextFd] }
    rcases hr : resolveFamiliesFrom ⟨w.nextFd, ty⟩ familyNames
      { w with
          openCount := w.openCount + 1
          nextFd := w.nextFd + 1
          openSocks := w.nextFd :: w.openSocks
          trace := w.trace ++ [Event.sockOpen w.nextFd] } with ⟨r, w2⟩
    rw [hr] at hres
    cases r with
    | error e =>
      dsimp only
      refine ⟨fun e' he' => ?_, fun dpif hd => by simp at hd⟩
      have hw2 : w2.openSocks = w.nextFd :: w.openSocks := (hres.1 e rfl).1
      show (w2.openSocks).erase w.nextFd = w.openSocks
      rw [hw2]
      exact List.erase_cons_head w.nextFd w.openSocks
    | ok fs =>
      dsimp only
      refine ⟨fun e' he' => by simp at he', fun dpif hd => ?_⟩
      simp only [Except.ok.injEq] at hd
      subst hd
      have hok := hres.2 fs rfl
      rcases hok.2.2 with ⟨f1, w1, f2, w2', f3, w3, f4, hc1, hc2, hc3, hc4, hfs⟩
      exact ⟨hok.1, rfl, rfl, hok.2.1,
        { w with
            openCount := w.openCount + 1
            nextFd := w.nextFd + 1
            openSocks := w.nextFd :: w.openSocks
            trace := w.trace ++ [Event.sockOpen w.nextFd] },
        f1, w1, f2, w2', f3, w3, f4, rfl, hc1, hc2, hc3, hc4, hfs⟩

theorem newDpifType_atomic_construction_witness :
    (newDpifType NETLINK_GENERIC baseWorld).1 = Except.ok dpifBase ∧
    dpifBase.families.length = FAMILY_COUNT ∧
    (newDpifType NETLINK_GENERIC baseWorld).2.openSocks =
      baseWorld.nextFd :: baseWorld.openSocks ∧
    (newDpifType NETLINK_GENERIC wEnoent).1 =
      Except.error (Err.familyUnavailable "ovs_datapath") ∧
    (newDpifType NETLINK_GENERIC wEnoent).2.openSocks = wEnoent.openSocks := by
  have hrun : (newDpifType NETLINK_GENERIC baseWorld).1 = Except.ok dpifBase := by rfl
  have h := (newDpifType_atomic_construction baseWorld NETLINK_GENERIC).2 dpifBase hrun
  have herr : (newDpifType NETLINK_GENERIC wEnoent).1 =
      Except.error (Err.familyUnavailable "ovs_datapath") := by rfl
  have h2 := (newDpifType_atomic_construction wEnoent NETLINK_GENERIC).1
    (Err.familyUnavailable "ovs_datapath") herr
  exact ⟨hrun, h.1, h.2.2.2.1, herr, h2⟩

/-- Claim C7: `Reopen` performs no family re-resolution - it issues no
genl queries and leaves the query count untouched - it opens one new
socket of the same transport kind, and the new handle's `Families` result
equals the original handle's, copied rather than re-queried. -/
theorem reopen_preserves_families (w : World) (dpif : Dpif) :
    (dpif.Reopen w).2.genlCount = w.genlCount ∧
    queryNames (dpif.Reopen w).2.trace = queryNames w.trace ∧
    (dpif.Reopen w).2.openCount = w.openCount + 1 ∧
    (∀ d, (dpif.Reopen w).1 = Except.ok d →
        d.Families = dpif.Families ∧ d.sock.sockType = dpif.sock.sockType) := by
  unfold Dpif.Reopen OpenNetlinkSocket
  cases ho : w.openOracle w.openCount with
  | some e =>
    dsimp only
    exact ⟨rfl, rfl, rfl, fun d hd => by simp at hd⟩
  | none =>
    dsimp only
    refine ⟨rfl, ?_, rfl, fun d hd => ?_⟩
    · simp [queryNames, List.filterMap_append]
    · simp only [Except.ok.injEq] at hd
      subst hd
      exact ⟨rfl, rfl⟩

theorem reopen_preserves_families_witness :
    (dpifSeven.Reopen baseWorld).1 =
      Except.ok ⟨⟨10, NETLINK_NETFILTER⟩, dpifSeven.families⟩ ∧
    (⟨⟨10, NETLINK_NETFILTER⟩, dpifSeven.families⟩ : Dpif).Families = dpifSeven.Families ∧
    (dpifSeven.Reopen baseWorld).2.genlCount = baseWorld.genlCount := by
  have h := reopen_preserves_families baseWorld dpifSeven
  have hrun : (dpifSeven.Reopen baseWorld).1 =
      Except.ok ⟨⟨10, NETLINK_NETFILTER⟩, dpifSeven.families⟩ := by rfl
  exact ⟨hrun, (h.2.2.2 _ hrun).1, h.1⟩

theorem newDpifType_ok_sock (w : World) (ty : Nat) (d : Dpif) (w2 : World)
    (h : newDpifType ty w = (Except.ok d, w2)) :
    d.sock.fd = w.nextFd ∧ d.sock.sockType = ty := by
  unfold newDpifType OpenNetlinkSocket at h
  cases ho : w.openOracle w.openCount with
  | some e =>
    rw [ho] at h
    simp at h
  | none =>
    rw [ho] at h
    dsimp only at h
    rcases hr : resolveFamiliesFrom ⟨w.nextFd, ty⟩ familyNames
      { w with
          openCount := w.openCount + 1
          nextFd := w.nextFd + 1
          openSocks := w.nextFd :: w.openSocks
          trace := w.trace ++ [Event.sockOpen w.nextFd] } with ⟨r, wr⟩
    rw [hr] at h
    cases r with
    | error e => simp at h
    | ok fs =>
      simp only [Prod.mk.injEq, Except.ok.injEq] at h
      rcases h with ⟨hd, hw⟩
      subst hd
      exact ⟨rfl, rfl⟩

theorem NewDpifOvs_ok_sock (w : World) (follow : Bool) (dpif : Dpif) (w1 : World)
    (h : NewDpifOvs follow w = (Except.ok dpif, w1)) :
    dpif.sock.fd = w.nextFd ∧ dpif.sock.sockType = NETLINK_GENERIC := by
  unfold NewDpifOvs at h
  rcases hn : newDpifType NETLINK_GENERIC w with ⟨rn, wn⟩
  rw [hn] at h
  cases rn with
  | error e => simp at h
  | ok d =>
    dsimp only at h
    have hs := newDpifType_ok_sock w NETLINK_GENERIC d wn hn
    cases hg : d.getMCGroup FLOW "ovs_flow" with
    | error e =>
      rw [hg] at h
      simp at h
    | ok g =>
      rw [hg] at h
      dsimp only at h
      cases follow with
      | false =>
        rw [if_neg (by decide : ¬ (false = true))] at h
        simp only [Prod.mk.injEq, Except.ok.injEq] at h
        rcases h with ⟨hd, hw⟩
        subst hd
        exact hs
      | true =>
        simp only [if_pos rfl] at h
        unfold SetsockoptAddMembership at h
        cases hso : wn.sockoptOracle wn.sockoptCount with
        | some e =>
          rw [hso] at h
          simp at h
        | none =>
          rw [hso] at h
          dsimp only at h
          simp only [if_true, Prod.mk.injEq, Except.ok.injEq] at h
          rcases h with ⟨hd, hw⟩
          subst hd
          exact hs

/-- Claim C9: the stop function returned by a successful
`FollowOvsFlows` performs its two effects in a fixed order on every
invocation: first the flow-follow stop obtained from the datapath handle,
then the close of the session's socket - never the reverse, as witnessed
by the exact trace it appends. -/
theorem followStop_order (w : World) (s : World → World)
    (hs : (FollowOvsFlows w).1.2.1 = some s)
    (he : (FollowOvsFlows w).1.2.2 = none) :
    ∀ w0, (s w0).trace = w0.trace ++ [Event.flowStop, Event.sockClose w.nextFd] := by
  unfold FollowOvsFlows at hs he
  rcases hn : NewDpifOvs true w with ⟨rn, w1⟩
  rw [hn] at hs he
  cases rn with
  | error e => simp at hs
  | ok dpif =>
    dsimp only at hs he
    have hfd := NewDpifOvs_ok_sock w true dpif w1 hn
    cases hl : lookupDatapath dpif w1.dpEnv "ovs-system" with
    | error e =>
      rw [hl] at hs
      simp at hs
    | ok pr =>
      rw [hl] at hs he
      rcases pr with ⟨dp, nm⟩
      unfold DatapathHandle.FollowFlows at hs he
      cases hfr : w1.followResult with
      | error e =>
        rw [hfr] at he
        simp at he
      | ok u =>
        rw [hfr] at hs
        dsimp only at hs
        simp only [Option.some.injEq] at hs
        subst hs
        intro w0
        unfold Dpif.Close NetlinkSocket.Close
        dsimp only
        rw [hfd.1]
        simp [List.append_assoc]

theorem followStop_order_witness :
    (stopBase baseWorld).trace =
      baseWorld.trace ++ [Event.flowStop, Event.sockClose baseWorld.nextFd] := by
  have hs : (FollowOvsFlows baseWorld).1.2.1 = some stopBase := rfl
  have he : (FollowOvsFlows baseWorld).1.2.2 = none := rfl
  exact followStop_order baseWorld stopBase hs he baseWorld

/-- Claim C1 (refuted, code bug): on the failure of step 2 - datapath
resolution - `FollowOvsFlows` returns the error while the session socket
it opened in step 1 is still open: starting from a world with no open
sockets and no datapaths, the call fails with the unified datapath error
yet leaves fd 10 in the open-socket set, so the session is leaked rather
than released. -/
theorem followOvsFlows_session_leak :
    wLeak.openSocks = [] ∧
    (FollowOvsFlows wLeak).1.2.2 = some (Err.cannotFindDatapath "ovs-system") ∧
    (FollowOvsFlows wLeak).2.openSocks = [10] := by
  refine ⟨rfl, ?_, ?_⟩ <;> rfl

/-- Claim C2 (refuted, code bug): the stop function returned by a
successful `FollowOvsFlows` has no idempotence guard: invoking it twice
re-runs both effects, closing the session's socket a second time (two
`sockClose` events for the same fd, and two flow-stop invocations), even
though the spec declares a second close transport-defined and demands
callers close exactly once. -/
theorem followStop_double_invoke :
    (FollowOvsFlows baseWorld).1.2.2 = none ∧
    (stopBase (FollowOvsFlows baseWorld).2).trace.count (Event.sockClose 10) = 1 ∧
    (stopBase (stopBase (FollowOvsFlows baseWorld).2)).trace.count (Event.sockClose 10) = 2 ∧
    (stopBase (stopBase (FollowOvsFlows baseWorld).2)).trace.count Event.flowStop = 2 := by
  refine ⟨rfl, ?_, ?_, ?_⟩ <;> rfl
